import Mathlib

/-!
Verification of the `mrx_mta` mail transfer agent against its specification.

The Python sources are shallowly embedded as executable Lean definitions:
  * `src/models/message.py`    → `Message`, `QueuedMessage`, `RecipientState`
  * `src/models/policy.py`     → `RateLimit`
  * `src/models/user.py`       → `User`
  * `src/services/queue_service.py`  → `QueueService.*`
  * `src/services/auth_service.py`   → `AuthService.*`
  * `src/services/policy_service.py` → `PolicyService.*`
  * `src/controllers/smtp_controller.py` → `SMTPSession`, `SMTPController.*`
  * `src/views/smtp_response_view.py`    → `SMTPResponseView.*`
  * `src/config.py`            → `Config` (default values of the knobs)

Wall-clock time (`time.time()`) is passed explicitly as a rational `now`;
the jitter source `random.random()` is passed as a rational parameter in
`[0, 1)`; external collaborators (the policy repository, the user store's
hash function) are passed as explicit function arguments.
-/

namespace MTA

/-- Python truthiness of an optional string: `None` and `''` are falsy. -/
def strFalsy : Option String → Bool
  | none => true
  | some s => s = ""

/-- Python `x or default` for an optional string (`None`/`''` give the default). -/
def pyOr (o : Option String) (default : String) : String :=
  match o with
  | none => default
  | some s => if s = "" then default else s

/-- Python `str(x)` for an optional string inside an f-string (`None` prints "None"). -/
def pyStr : Option String → String
  | none => "None"
  | some s => s

/-- Association-list update with Python `dict` semantics: an existing key keeps
its position, a new key is appended at the end. -/
def assocSet {β : Type} (l : List (String × β)) (k : String) (v : β) : List (String × β) :=
  if (l.lookup k).isSome then
    l.map (fun p => if p.1 = k then (p.1, v) else p)
  else
    l ++ [(k, v)]

/-- Association-list delete (`del d[k]`). -/
def assocErase {β : Type} (l : List (String × β)) (k : String) : List (String × β) :=
  l.filter (fun p => p.1 ≠ k)

/-! ### Character-level string operations

Python strings are sequences of characters, so the `str` methods the source
uses are embedded as character-list operations over `String.data`. -/

/-- Does the first list start with the second? -/
def startsWithChars : List Char → List Char → Bool
  | _, [] => true
  | [], _ :: _ => false
  | a :: as, b :: bs => a = b && startsWithChars as bs

/-- Does `pat` occur contiguously inside the second list? -/
def hasSubstring (pat : List Char) : List Char → Bool
  | [] => startsWithChars [] pat
  | c :: tl => startsWithChars (c :: tl) pat || hasSubstring pat tl

/-- Does `pat` occur contiguously inside `s` (Python `pat in s`)? -/
def strContains (s pat : String) : Bool :=
  hasSubstring pat.data s.data

/-- Python `s.upper()` (character-wise). -/
def pyUpper (s : String) : String := String.mk (s.data.map Char.toUpper)

/-- Python `s.startswith(p)`. -/
def pyStartsWith (s p : String) : Bool := startsWithChars s.data p.data

/-- Python `s[n:]` (character slicing). -/
def pyDrop (s : String) (n : ℕ) : String := String.mk (s.data.drop n)

/-- Python `s.strip()`: remove leading and trailing whitespace. -/
def pyStrip (s : String) : String :=
  String.mk (((s.data.dropWhile Char.isWhitespace).reverse.dropWhile Char.isWhitespace).reverse)

/-- Python `s.split(c)` for a one-character separator. -/
def pySplitChar (c : Char) : List Char → List (List Char)
  | [] => [[]]
  | x :: xs =>
    let r := pySplitChar c xs
    if x = c then [] :: r
    else
      match r with
      | h :: t => (x :: h) :: t
      | [] => [[x]]

/-! ## Configuration (src/config.py, default values) -/

/-- `config.RETRY_SCHEDULE` (seconds): 5m, 15m, 1h, 4h, 12h, 24h, 48h. -/
def RETRY_SCHEDULE : List ℚ := [300, 900, 3600, 14400, 43200, 86400, 172800]

/-- `config.MAX_QUEUE_AGE` default: 7 days in seconds. -/
def MAX_QUEUE_AGE : ℚ := 604800

/-- Environment-configurable knobs read by the SMTP controller
(src/config.py); a `Config` value holds one concrete assignment. -/
structure Config where
  smtp_max_message_size : ℕ
  smtp_max_recipients : ℕ
  auth_required_submission : Bool
  tls_required_on_submission : Bool
  greylist_enabled : Bool
  deriving DecidableEq, Repr

/-- The defaults from src/config.py. -/
def defaultConfig : Config :=
  { smtp_max_message_size := 35 * 1024 * 1024
    smtp_max_recipients := 100
    auth_required_submission := true
    tls_required_on_submission := true
    greylist_enabled := false }

/-! ## Message model (src/models/message.py) -/

/-- `Message` (src/models/message.py).  `sender` is `Option String` because the
controller stores `None` until MAIL FROM and `''` for the null sender; the
metadata fields (`message_id`, `received_at`, `size`, `session_info`) are not
read by any claim and are omitted. -/
structure Message where
  sender : Option String
  recipients : List String
  data : String
  deriving DecidableEq, Repr

/-- `Message.validate` (src/models/message.py lines 63-71): each field is
checked for Python truthiness, including the sender. -/
def Message.validate (m : Message) : Bool :=
  if strFalsy m.sender then false
  else if m.recipients.isEmpty then false
  else if m.data = "" then false
  else true

/-- One value of the `recipient_status` dict of a `QueuedMessage`
(src/models/message.py lines 93-103). -/
structure RecipientState where
  status : String
  attempts : ℕ
  last_error : Option String
  last_attempt : Option ℚ
  deriving DecidableEq, Repr

/-- `QueuedMessage` (src/models/message.py lines 74-103). -/
structure QueuedMessage where
  queue_id : String
  message : Message
  status : String
  created_at : ℚ
  next_retry_at : Option ℚ
  attempts : ℕ
  last_error : Option String
  recipient_status : List (String × RecipientState)
  deriving DecidableEq, Repr

/-- `QueuedMessage.__post_init__`: a fresh queue entry has `status='active'`,
`attempts=0`, no retry time, and every recipient `pending`. -/
def QueuedMessage.mkNew (queue_id : String) (message : Message) (now : ℚ) : QueuedMessage :=
  { queue_id := queue_id
    message := message
    status := "active"
    created_at := now
    next_retry_at := none
    attempts := 0
    last_error := none
    recipient_status := message.recipients.map
      (fun rcpt => (rcpt, { status := "pending", attempts := 0,
                            last_error := none, last_attempt := none })) }

/-- Body of `QueuedMessage.pending_recipients` over a raw recipient map. -/
def pendingOf (rs : List (String × RecipientState)) : List String :=
  (rs.filter (fun p => p.2.status = "pending" || p.2.status = "deferred")).map Prod.fst

/-- Body of `QueuedMessage.all_delivered` over a raw recipient map. -/
def allDeliveredOf (rs : List (String × RecipientState)) : Bool :=
  rs.all (fun p => p.2.status = "delivered")

/-- `QueuedMessage.pending_recipients` (src/models/message.py lines 105-110). -/
def QueuedMessage.pending_recipients (m : QueuedMessage) : List String :=
  pendingOf m.recipient_status

/-- `QueuedMessage.is_expired` (src/models/message.py lines 112-114). -/
def QueuedMessage.is_expired (m : QueuedMessage) (max_age now : ℚ) : Bool :=
  now - m.created_at > max_age

/-- `QueuedMessage.all_delivered` (src/models/message.py lines 116-121). -/
def QueuedMessage.all_delivered (m : QueuedMessage) : Bool :=
  allDeliveredOf m.recipient_status

/-! ## Queue service (src/services/queue_service.py) -/

namespace QueueService

/-- The f-string `f"{smtp_code} {smtp_message}"`. -/
def statusLine (smtp_code : ℕ) (smtp_message : String) : String :=
  toString smtp_code ++ " " ++ smtp_message

/-- `QueueService._calculate_next_retry` (lines 157-170).  `r` stands for the
value of `random.random()`, a rational in `[0, 1)`. -/
def calculate_next_retry (attempts : ℕ) (now r : ℚ) : Option ℚ :=
  if attempts ≥ RETRY_SCHEDULE.length then none
  else
    let delay := RETRY_SCHEDULE.getD attempts 0
    let jitter := delay * (1/5) * (r - 1/2) * 2
    let delay_with_jitter := delay + jitter
    some (now + delay_with_jitter)

/-- The per-recipient mutation of `update_delivery_status` (lines 68-85):
bump attempts, stamp the time, set the state by reply-code class. -/
def applyCode (st : RecipientState) (smtp_code : ℕ) (smtp_message : String)
    (now : ℚ) : RecipientState :=
  let st1 := { st with attempts := st.attempts + 1, last_attempt := some now }
  if 200 ≤ smtp_code ∧ smtp_code < 300 then
    { st1 with status := "delivered" }
  else if 400 ≤ smtp_code ∧ smtp_code < 500 then
    { st1 with status := "deferred", last_error := some (statusLine smtp_code smtp_message) }
  else if 500 ≤ smtp_code ∧ smtp_code < 600 then
    { st1 with status := "bounce", last_error := some (statusLine smtp_code smtp_message) }
  else st1

/-- Lines 66-85: the recipient entry is mutated only when the key is present. -/
def updateRecipientStatus (rs : List (String × RecipientState)) (recipient : String)
    (smtp_code : ℕ) (smtp_message : String) (now : ℚ) : List (String × RecipientState) :=
  if (rs.lookup recipient).isSome then
    rs.map (fun p => if p.1 = recipient then (p.1, applyCode p.2 smtp_code smtp_message now) else p)
  else rs

/-- `QueueService.update_delivery_status` (lines 56-111), body after a
successful `find_by_id`: recipient mutation, overall bookkeeping, status
recomputation, and the expiry override. -/
def update_delivery_status_found (m : QueuedMessage) (recipient : String)
    (smtp_code : ℕ) (smtp_message : String) (now r : ℚ) : QueuedMessage :=
  let m1 := { m with
    recipient_status := updateRecipientStatus m.recipient_status recipient smtp_code smtp_message now
    attempts := m.attempts + 1
    last_error := some (statusLine smtp_code smtp_message) }
  let m2 :=
    if m1.pending_recipients ≠ [] then
      { m1 with next_retry_at := calculate_next_retry m1.attempts now r, status := "deferred" }
    else if m1.all_delivered then
      { m1 with status := "delivered" }
    else
      { m1 with status := "bounce" }
  if m2.is_expired MAX_QUEUE_AGE now then { m2 with status := "bounce" } else m2

/-- `QueueService.update_delivery_status` (lines 56-111): `found` is the
result of `find_by_id`; the first component is what gets persisted by
`queue_repo.update`, the second the method's return value. -/
def update_delivery_status (found : Option QueuedMessage) (recipient : String)
    (smtp_code : ℕ) (smtp_message : String) (now r : ℚ) : Option QueuedMessage × Bool :=
  match found with
  | none => (none, false)
  | some m => (some (update_delivery_status_found m recipient smtp_code smtp_message now r), true)

/-- `QueueService.enqueue_message` (lines 25-46) composed with
`QueueRepository.enqueue` (src/repositories/queue_repository.py lines 74-117):
the repository's fresh `make_msgid` value is the `newId` argument; a
validation failure raises `ValueError("Invalid message: ...")`. -/
def enqueue_message (sender : Option String) (recipients : List String)
    (message_data : String) (newId : String) (now : ℚ) : Except String QueuedMessage :=
  let message : Message := { sender := sender, recipients := recipients, data := message_data }
  if ¬ message.validate then
    Except.error "Invalid message: missing required fields"
  else
    Except.ok (QueuedMessage.mkNew newId message now)

end QueueService

/-! ## User model (src/models/user.py) -/

/-- `User` (src/models/user.py).  `created_at` and `metadata` are not read by
any claim and are omitted. -/
structure User where
  username : String
  password_hash : String
  enabled : Bool
  admin : Bool
  rate_limit : ℕ
  last_login : Option ℚ
  login_count : ℕ
  deriving DecidableEq, Repr

/-- `User.verify_password` (src/models/user.py lines 33-37): `hashFn` stands
for `hashlib.sha256(...).hexdigest()`. -/
def User.verify_password (hashFn : String → String) (u : User) (password : String) : Bool :=
  hashFn password = u.password_hash

/-- `User.record_login` (src/models/user.py lines 45-48). -/
def User.record_login (u : User) (now : ℚ) : User :=
  { u with last_login := some now, login_count := u.login_count + 1 }

/-! ## Auth service (src/services/auth_service.py) -/

namespace AuthService

/-- The mutable state of `AuthService`: `failed_attempts` maps a peer IP to a
list of failure timestamps, `locked_ips` maps a peer IP to the lockout-expiry
instant. -/
structure AuthState where
  failed_attempts : List (String × List ℚ)
  locked_ips : List (String × ℚ)
  deriving DecidableEq, Repr

/-- `AuthService._is_locked` (lines 118-129).  Returns the answer and the
state: an expired lock is deleted and the IP's failure list is emptied. -/
def is_locked (st : AuthState) (ip : String) (now : ℚ) : Bool × AuthState :=
  match st.locked_ips.lookup ip with
  | none => (false, st)
  | some expiry =>
    if now < expiry then (true, st)
    else
      (false, { failed_attempts := assocSet st.failed_attempts ip []
                locked_ips := assocErase st.locked_ips ip })

/-- `AuthService._record_failure` (lines 131-150): append the current failure,
prune entries older than the lockout duration, lock the IP when the count
reaches `max_attempts`. -/
def record_failure (max_attempts : ℕ) (lockout_duration : ℚ)
    (st : AuthState) (ip : String) (now : ℚ) : AuthState :=
  let lst := ((st.failed_attempts.lookup ip).getD []) ++ [now]
  let lst := lst.filter (fun t => now - t < lockout_duration)
  let st1 := { st with failed_attempts := assocSet st.failed_attempts ip lst }
  if lst.length ≥ max_attempts then
    { st1 with locked_ips := assocSet st1.locked_ips ip (now + lockout_duration) }
  else st1

/-- `AuthService._clear_failures` (lines 152-157). -/
def clear_failures (st : AuthState) (ip : String) : AuthState :=
  { failed_attempts := assocErase st.failed_attempts ip
    locked_ips := assocErase st.locked_ips ip }

/-- `AuthService.authenticate` (lines 32-68).  `users` models the user
repository (`find_by_username` is the first match); the result carries the
updated auth state, the returned user, and the saved user list. -/
def authenticate (hashFn : String → String) (max_attempts : ℕ) (lockout_duration : ℚ)
    (users : List User) (st : AuthState) (username password peer_ip : String)
    (now : ℚ) : AuthState × Option User × List User :=
  let (locked, st) := is_locked st peer_ip now
  if locked then (st, none, users)
  else
    match users.find? (fun u => u.username = username) with
    | none => (record_failure max_attempts lockout_duration st peer_ip now, none, users)
    | some user =>
      if ¬ user.enabled then (st, none, users)
      else if ¬ user.verify_password hashFn password then
        (record_failure max_attempts lockout_duration st peer_ip now, none, users)
      else
        let user' := user.record_login now
        (clear_failures st peer_ip, some user',
         users.map (fun u => if u.username = username then user' else u))

end AuthService

/-! ## Rate limiting (src/models/policy.py, src/services/policy_service.py) -/

/-- `RateLimit` (src/models/policy.py lines 52-96). -/
structure RateLimit where
  identifier : String
  limit_type : String
  capacity : ℕ
  tokens : ℚ
  refill_rate : ℚ
  last_refill : ℚ
  total_requests : ℕ
  rejected_requests : ℕ
  deriving DecidableEq, Repr

/-- `RateLimit.refill` (lines 71-81). -/
def RateLimit.refill (b : RateLimit) (now : ℚ) : RateLimit :=
  let elapsed := now - b.last_refill
  { b with tokens := min (b.capacity : ℚ) (b.tokens + elapsed * b.refill_rate)
           last_refill := now }

/-- `RateLimit.consume` (lines 83-96); `tokens` defaults to 1 in the source
and every caller uses that default. -/
def RateLimit.consume (b : RateLimit) (now : ℚ) (tokens : ℕ) : RateLimit × Bool :=
  let b := b.refill now
  let b := { b with total_requests := b.total_requests + 1 }
  if (tokens : ℚ) ≤ b.tokens then
    ({ b with tokens := b.tokens - tokens }, true)
  else
    ({ b with rejected_requests := b.rejected_requests + 1 }, false)

namespace PolicyService

/-- The bucket created by `PolicyService.check_rate_limit` (lines 68-76) when
none exists: full tokens, `last_refill` defaulted to the creation time. -/
def freshRateLimit (identifier limit_type : String) (capacity : ℕ)
    (refill_rate : ℚ) (now : ℚ) : RateLimit :=
  { identifier := identifier, limit_type := limit_type, capacity := capacity
    tokens := (capacity : ℚ), refill_rate := refill_rate, last_refill := now
    total_requests := 0, rejected_requests := 0 }

/-- `PolicyService.check_rate_limit` (lines 58-87): load or create, consume
one token, persist.  The first component is what gets persisted. -/
def check_rate_limit (existing : Option RateLimit) (identifier limit_type : String)
    (capacity : ℕ) (refill_rate : ℚ) (now : ℚ) : RateLimit × Bool :=
  let rate_limit := existing.getD (freshRateLimit identifier limit_type capacity refill_rate now)
  rate_limit.consume now 1

/-- Iterate `RateLimit.consume` at a fixed instant, collecting the answers. -/
def consumeN (b : RateLimit) (now : ℚ) : ℕ → RateLimit × List Bool
  | 0 => (b, [])
  | n + 1 =>
    let (b1, ok) := b.consume now 1
    let (b2, oks) := consumeN b1 now n
    (b2, ok :: oks)

/-- `PolicyService.check_blacklist` (lines 27-36): the falsy arguments are
filtered out, the rest are looked up in the repository (`bl`). -/
def check_blacklist (bl : String → Bool) (ip domain email : Option String) : Bool :=
  (([ip, domain, email].filterMap id).filter (fun t => t ≠ "")).any bl

end PolicyService

/-! ## SMTP response view (src/views/smtp_response_view.py) -/

namespace SMTPResponseView

/-- `SMTPResponseView.ENHANCED_CODES` (lines 45-69). -/
def ENHANCED_CODES : List (ℕ × String) :=
  [(220, "2.0.0"), (221, "2.0.0"), (235, "2.7.0"), (250, "2.0.0"), (251, "2.1.5"),
   (252, "2.5.3"), (354, "2.0.0"), (421, "4.3.0"), (450, "4.2.0"), (451, "4.3.0"),
   (452, "4.2.2"), (500, "5.5.2"), (501, "5.5.4"), (502, "5.5.1"), (503, "5.5.1"),
   (504, "5.5.4"), (530, "5.7.0"), (535, "5.7.8"), (550, "5.1.1"), (551, "5.1.6"),
   (552, "5.2.2"), (553, "5.1.3"), (554, "5.5.0")]

/-- `SMTPResponseView.format_reply` (lines 71-93), single-line case (the
`multiline` parameter is only used by the EHLO and HELP replies, which no
claim mentions). -/
def format_reply (code : ℕ) (message : String) : String :=
  let enhanced := match ENHANCED_CODES.lookup code with
    | some e => e ++ " "
    | none => ""
  toString code ++ " " ++ enhanced ++ message ++ "\r\n"

/-- `SMTPResponseView.bad_sequence` (line 164-166). -/
def bad_sequence (message : String) : String := format_reply 503 message

/-- `SMTPResponseView.auth_required` (line 169-171). -/
def auth_required : String := format_reply 530 "Authentication required"

/-- `SMTPResponseView.exceeded_storage` (line 184-186). -/
def exceeded_storage (message : String) : String := format_reply 552 message

/-- `SMTPResponseView.local_error` (line 194-196). -/
def local_error (message : String) : String := format_reply 451 message

/-- `SMTPResponseView.start_data` (line 117-119). -/
def start_data : String := format_reply 354 "End data with <CRLF>.<CRLF>"

/-- `SMTPResponseView.message_accepted` (line 210-212). -/
def message_accepted (queue_id : String) : String :=
  format_reply 250 ("Message accepted for delivery (Queue ID: " ++ queue_id ++ ")")

/-- `SMTPResponseView.sender_ok` (line 215-217). -/
def sender_ok (sender : String) : String :=
  format_reply 250 ("Sender <" ++ sender ++ "> OK")

/-- `SMTPResponseView.recipient_ok` (line 220-222). -/
def recipient_ok (recipient : String) : String :=
  format_reply 250 ("Recipient <" ++ recipient ++ "> OK")

/-- `SMTPResponseView.rate_limited` (line 240-242). -/
def rate_limited : String := format_reply 450 "Rate limit exceeded, try again later"

/-- `SMTPResponseView.policy_rejected` (line 245-247). -/
def policy_rejected (reason : String) : String :=
  format_reply 550 ("Rejected by policy: " ++ reason)

/-- `SMTPResponseView.greylisted` (line 250-252). -/
def greylisted : String := format_reply 450 "Greylisted, try again later"

end SMTPResponseView

/-! ## SMTP session state machine (src/controllers/smtp_controller.py) -/

/-- `SMTPState` (lines 22-30). -/
inductive SMTPState where
  | INITIAL | GREETED | AUTHENTICATED | MAIL | RCPT | DATA | QUIT
  deriving DecidableEq, Repr

/-- `SMTPSession` (lines 33-89): the per-connection protocol state. -/
structure SMTPSession where
  state : SMTPState
  server_name : String
  peer_ip : String
  is_submission : Bool
  helo_name : Option String
  esmtp : Bool
  tls_active : Bool
  authenticated_user : Option String
  mail_from : Option String
  rcpt_to : List String
  message_data : Option String
  error_count : ℕ
  unknown_command_count : ℕ
  queue_id : Option String
  deriving DecidableEq, Repr

/-- `SMTPSession.is_authenticated` (lines 71-73): `authenticated_user is not None`. -/
def SMTPSession.is_authenticated (s : SMTPSession) : Bool :=
  s.authenticated_user.isSome

/-- `SMTPSession.requires_auth` (lines 75-77). -/
def SMTPSession.requires_auth (cfg : Config) (s : SMTPSession) : Bool :=
  s.is_submission && cfg.auth_required_submission

/-- `SMTPSession.reset_envelope` (lines 83-89). -/
def SMTPSession.reset_envelope (s : SMTPSession) : SMTPSession :=
  let s := { s with mail_from := none, rcpt_to := [], message_data := none }
  if s.state = .MAIL ∨ s.state = .RCPT ∨ s.state = .DATA then
    { s with state := .GREETED }
  else s

/-! ### The simplified RFC 5321 address regex (line 99)

`EMAIL_REGEX = ^<?([a-zA-Z0-9_.+-]+@[a-zA-Z0-9-]+\.[a-zA-Z0-9-.]+)>?$`.
Neither `<` nor `>` belongs to a character class, so the optional angle
brackets can be stripped first; `@` belongs to no class, so the local part is
the maximal run before the unique `@`; the dot splitting the domain must be
the first dot. -/

/-- ASCII `[a-zA-Z0-9]`. -/
def isAlnumAscii (c : Char) : Bool := c.isAlpha || c.isDigit

/-- The class `[a-zA-Z0-9_.+-]` of the local part. -/
def localChar (c : Char) : Bool :=
  isAlnumAscii c || c = '_' || c = '.' || c = '+' || c = '-'

/-- The class `[a-zA-Z0-9-]` of the first domain label. -/
def domChar (c : Char) : Bool := isAlnumAscii c || c = '-'

/-- The class `[a-zA-Z0-9-.]` of the domain tail. -/
def domTailChar (c : Char) : Bool := domChar c || c = '.'

/-- Match `[a-zA-Z0-9-]+\.[a-zA-Z0-9-.]+` against the whole list. -/
def matchDomainChars (l : List Char) : Bool :=
  let pre := l.takeWhile (fun c => c ≠ '.')
  match l.drop pre.length with
  | '.' :: tail => !pre.isEmpty && pre.all domChar && !tail.isEmpty && tail.all domTailChar
  | _ => false

/-- `EMAIL_REGEX.match(s)`, returning group 1 on success. -/
def emailRegexMatch (s : String) : Option String :=
  let l := s.toList
  let l := match l with
    | '<' :: rest => rest
    | _ => l
  let l := if l.getLast? = some '>' then l.dropLast else l
  let local_part := l.takeWhile (fun c => c ≠ '@')
  match l.drop local_part.length with
  | '@' :: domain =>
    if !local_part.isEmpty && local_part.all localChar && matchDomainChars domain then
      some (String.mk l)
    else none
  | _ => none

/-! ### Command handlers (src/controllers/smtp_controller.py) -/

namespace SMTPController

open SMTPResponseView

/-- The service calls a MAIL/RCPT handler can make, passed in explicitly:
the blacklist repository lookup behind `PolicyService.check_blacklist`, the
user store behind `AuthService.get_user`, and the boolean outcomes of the
rate-limit and greylist checks. -/
structure PolicyOracle where
  blacklisted : String → Bool
  get_user : String → Option User
  user_rate_ok : String → ℕ → Bool
  ip_rate_ok : String → Bool
  greylist : Option String → String → String → Bool × String

/-- `SMTPController._handle_MAIL` (lines 375-422).  Returns the session after
the command and the replies written. -/
def handle_MAIL (cfg : Config) (po : PolicyOracle) (s : SMTPSession)
    (args : String) : SMTPSession × List String :=
  if ¬ (s.state = .GREETED ∨ s.state = .AUTHENTICATED) then
    (s, [bad_sequence "Use HELO/EHLO first"])
  else if s.requires_auth cfg ∧ ¬ s.is_authenticated then
    (s, [auth_required])
  else if ¬ pyStartsWith (pyUpper args) "FROM:" then
    (s, [format_reply 501 "Syntax: MAIL FROM:<address>"])
  else
    let address_part := pyStrip (pyDrop args 5)
    let mtch := emailRegexMatch address_part
    if mtch.isNone ∧ address_part ≠ "<>" then
      (s, [format_reply 501 "Invalid sender address"])
    else
      let sender := mtch.getD ""
      let sender_domain :=
        if sender ≠ "" ∧ (pySplitChar '@' sender.data).length ≥ 2 then
          ((pySplitChar '@' sender.data).get? 1).map String.mk
        else none
      if PolicyService.check_blacklist po.blacklisted (some s.peer_ip) sender_domain (some sender) then
        (s, [policy_rejected "Sender blacklisted"])
      else if ¬ strFalsy s.authenticated_user then
        let username := s.authenticated_user.getD ""
        match po.get_user username with
        | some user =>
          if ¬ po.user_rate_ok username user.rate_limit then (s, [rate_limited])
          else ({ s with mail_from := some sender, state := .MAIL }, [sender_ok sender])
        | none => ({ s with mail_from := some sender, state := .MAIL }, [sender_ok sender])
      else if ¬ po.ip_rate_ok s.peer_ip then (s, [rate_limited])
      else ({ s with mail_from := some sender, state := .MAIL }, [sender_ok sender])

/-- `SMTPController._handle_RCPT` (lines 424-466). -/
def handle_RCPT (cfg : Config) (po : PolicyOracle) (s : SMTPSession)
    (args : String) : SMTPSession × List String :=
  if ¬ (s.state = .MAIL ∨ s.state = .RCPT) then
    (s, [bad_sequence "Use MAIL FROM first"])
  else if ¬ pyStartsWith (pyUpper args) "TO:" then
    (s, [format_reply 501 "Syntax: RCPT TO:<address>"])
  else if s.rcpt_to.length ≥ cfg.smtp_max_recipients then
    (s, [exceeded_storage "Too many recipients"])
  else
    let address_part := pyStrip (pyDrop args 3)
    match emailRegexMatch address_part with
    | none => (s, [format_reply 501 "Invalid recipient address"])
    | some recipient =>
      let recipient_domain :=
        if (pySplitChar '@' recipient.data).length ≥ 2 then
          ((pySplitChar '@' recipient.data).get? 1).map String.mk
        else none
      if PolicyService.check_blacklist po.blacklisted none recipient_domain (some recipient) then
        (s, [policy_rejected "Recipient blacklisted"])
      else if cfg.greylist_enabled ∧ ¬ s.is_authenticated then
        let (passed, _reason) := po.greylist s.mail_from recipient s.peer_ip
        if ¬ passed then (s, [greylisted])
        else ({ s with rcpt_to := s.rcpt_to ++ [recipient], state := .RCPT },
              [recipient_ok recipient])
      else ({ s with rcpt_to := s.rcpt_to ++ [recipient], state := .RCPT },
            [recipient_ok recipient])

/-- Python `line.rstrip('\r\n')`: drop every trailing `'\r'` or `'\n'`. -/
def stripTrailingCRLF (l : String) : String :=
  String.mk ((l.toList.reverse.dropWhile (fun c => c = '\r' || c = '\n')).reverse)

/-- Outcome of the DATA read loop (lines 481-506). -/
inductive ReadDataResult where
  | lost
  | oversize
  | done (body : String)
  deriving DecidableEq, Repr

/-- The DATA read loop (lines 481-506): stop at the lone-dot line, undo dot
transparency, accumulate the size after stripping, reply oversize as soon as
the running total exceeds the limit; an exhausted input is a lost
connection. -/
def readDataLines (max_size : ℕ) : List String → List String → ℕ → ReadDataResult
  | [], _acc, _total => .lost
  | line :: rest, acc, total =>
    if stripTrailingCRLF line = "." then .done (String.join acc.reverse)
    else
      let line_str := if pyStartsWith line ".." then pyDrop line 1 else line
      let acc := line_str :: acc
      let total := total + line_str.length
      if total > max_size then .oversize
      else readDataLines max_size rest acc total

/-- The `with_part` of `_generate_received_header` (lines 565-567): note the
plaintext-with-auth combination yields `ESMTPA`. -/
def with_part (s : SMTPSession) : String :=
  (if s.tls_active then "with ESMTPS" else "with ESMTP") ++
  (if ¬ strFalsy s.authenticated_user then "A" else "")

/-- The `id_part` of `_generate_received_header` (line 569):
`f"id {session.queue_id or 'unknown'}"`. -/
def id_part (s : SMTPSession) : String :=
  "id " ++ pyOr s.queue_id "unknown"

/-- The `for_part` of `_generate_received_header` (line 570). -/
def for_part (s : SMTPSession) : String :=
  match s.rcpt_to with
  | [r] => "for <" ++ r ++ ">"
  | _ => ""

/-- `SMTPController._generate_received_header` (lines 560-573).  `timestamp`
stands for `formatdate(localtime=True)`. -/
def generate_received_header (s : SMTPSession) (timestamp : String) : String :=
  let from_part := "from " ++ pyStr s.helo_name ++ " (" ++ s.peer_ip ++ ")"
  let by_part := "by " ++ s.server_name
  "Received: " ++ from_part ++ "\r\n\t" ++ by_part ++ " " ++ with_part s ++ "\r\n\t" ++
    id_part s ++ " " ++ for_part s ++ ";\r\n\t" ++ timestamp ++ "\r\n"

/-- `SMTPController._handle_DATA` (lines 468-558).  `lines` is the stream of
decoded lines the client sends after 354, `newId` the fresh queue id the
repository would mint, `ts` the Received-header timestamp.  Returns the
session after the command, the replies written, and the queued message (if
any) that was stored. -/
def handle_DATA (cfg : Config) (s : SMTPSession) (args : String) (lines : List String)
    (newId ts : String) (now : ℚ) : SMTPSession × List String × Option QueuedMessage :=
  if s.state ≠ .RCPT then
    (s, [bad_sequence "Use RCPT TO first"], none)
  else if args ≠ "" then
    (s, [format_reply 501 "DATA does not accept parameters"], none)
  else
    match readDataLines cfg.smtp_max_message_size lines [] 0 with
    | .lost => (s, [start_data, local_error "Connection lost during DATA"], none)
    | .oversize => (s, [start_data, exceeded_storage "Message size exceeds limit"], none)
    | .done body =>
      let s1 := { s with message_data := some body }
      let header := generate_received_header s1 ts
      let full := header ++ body
      let s2 := { s1 with message_data := some full }
      match QueueService.enqueue_message s2.mail_from s2.rcpt_to full newId now with
      | .ok qm =>
        let s3 := { s2 with queue_id := some qm.queue_id }
        (s3.reset_envelope, [start_data, message_accepted qm.queue_id], some qm)
      | .error _ =>
        (s2.reset_envelope, [start_data, local_error "Failed to queue message"], none)

end SMTPController

/-! ## The spec's overall-status invariant (spec.md §3)

"`status=delivered ⇔ ∀r: recipient_status[r].state=delivered`.
 `status=bounce ⇔ no recipient is pending/deferred ∧ at least one is bounce`."
The claim under test asserts only the forward direction of the second
equivalence, which is what this predicate states. -/

/-- The overall-status invariant stated by the specification. -/
def overall_status_invariant (m : QueuedMessage) : Prop :=
  (m.status = "delivered" ↔ ∀ p ∈ m.recipient_status, p.2.status = "delivered") ∧
  (m.status = "bounce" →
    m.pending_recipients = [] ∧ ∃ p ∈ m.recipient_status, p.2.status = "bounce")

/-! ## Concrete sample data for witnesses and counterexamples -/

/-- A policy environment in which nothing is blacklisted, rate limits pass,
and greylisting passes. -/
def samplePolicyOracle : SMTPController.PolicyOracle :=
  { blacklisted := fun _ => false
    get_user := fun _ => none
    user_rate_ok := fun _ _ => true
    ip_rate_ok := fun _ => true
    greylist := fun _ _ _ => (true, "ok") }

/-- A plaintext relay session that has sent EHLO. -/
def sampleSessionGreeted : SMTPSession :=
  { state := .GREETED, server_name := "mail.example.com", peer_ip := "10.0.0.1"
    is_submission := false, helo_name := some "c.example", esmtp := true
    tls_active := false, authenticated_user := none, mail_from := none
    rcpt_to := [], message_data := none, error_count := 0
    unknown_command_count := 0, queue_id := none }

/-- A fresh connection that has not yet greeted. -/
def sampleSessionInitial : SMTPSession :=
  { sampleSessionGreeted with state := .INITIAL, helo_name := none, esmtp := false }

/-- A session in the middle of a transaction: MAIL and one RCPT accepted. -/
def sampleSessionRcpt : SMTPSession :=
  { sampleSessionGreeted with
    state := .RCPT, mail_from := some "a@b.cd", rcpt_to := ["r@d.example"] }

/-- A queued message with a single still-pending recipient and a given
overall attempts counter. -/
def samplePendingMsg (attempts : ℕ) : QueuedMessage :=
  { queue_id := "QSAMPLE"
    message := { sender := some "a@b.cd", recipients := ["r@d.example"], data := "x" }
    status := "active", created_at := 0, next_retry_at := none
    attempts := attempts, last_error := none
    recipient_status := [("r@d.example",
      { status := "pending", attempts := attempts, last_error := none, last_attempt := none })] }

/-- A disabled account whose stored hash matches the password "pw" under the
identity hash function. -/
def sampleDisabledUser : User :=
  { username := "bob", password_hash := "pw", enabled := false, admin := false
    rate_limit := 100, last_login := none, login_count := 0 }

/-- An enabled account with stored hash "h" under the identity hash
function. -/
def sampleEnabledUser : User :=
  { username := "alice", password_hash := "h", enabled := true, admin := false
    rate_limit := 100, last_login := none, login_count := 0 }

/-! ## Shared lemmas -/

/-- Closed form of `QueueService.update_delivery_status_found`: the recipient
map is updated, the counters bumped, and status / next-retry recomputed from
the updated map, with the expiry override applied last. -/
theorem update_found_eq (m : QueuedMessage) (rcpt : String) (c : ℕ) (msg : String)
    (now r : ℚ) :
    QueueService.update_delivery_status_found m rcpt c msg now r =
      { m with
        recipient_status := QueueService.updateRecipientStatus m.recipient_status rcpt c msg now
        attempts := m.attempts + 1
        last_error := some (QueueService.statusLine c msg)
        next_retry_at :=
          if pendingOf (QueueService.updateRecipientStatus m.recipient_status rcpt c msg now) ≠ [] then
            QueueService.calculate_next_retry (m.attempts + 1) now r
          else m.next_retry_at
        status :=
          if now - m.created_at > MAX_QUEUE_AGE then "bounce"
          else if pendingOf (QueueService.updateRecipientStatus m.recipient_status rcpt c msg now) ≠ [] then
            "deferred"
          else if allDeliveredOf (QueueService.updateRecipientStatus m.recipient_status rcpt c msg now) then
            "delivered"
          else "bounce" } := by
  by_cases h1 :
      pendingOf (QueueService.updateRecipientStatus m.recipient_status rcpt c msg now) ≠ [] <;>
    by_cases h2 : now - m.created_at > MAX_QUEUE_AGE <;>
      by_cases h3 :
          allDeliveredOf (QueueService.updateRecipientStatus m.recipient_status rcpt c msg now) = true <;>
        simp [QueueService.update_delivery_status_found, QueuedMessage.pending_recipients,
          QueuedMessage.all_delivered, QueuedMessage.is_expired, h1, h2, h3]

/-- A recipient key that is absent from the map leaves the map untouched. -/
theorem updateRecipientStatus_missing (rs : List (String × RecipientState))
    (rcpt : String) (c : ℕ) (msg : String) (now : ℚ) (h : rs.lookup rcpt = none) :
    QueueService.updateRecipientStatus rs rcpt c msg now = rs := by
  simp [QueueService.updateRecipientStatus, h]

/-- The status written by `applyCode` is `delivered`, `deferred`, `bounce`,
or the recipient's previous status (codes outside 200-599). -/
theorem applyCode_status_cases (st : RecipientState) (c : ℕ) (msg : String) (now : ℚ) :
    (QueueService.applyCode st c msg now).status = "delivered" ∨
    (QueueService.applyCode st c msg now).status = "deferred" ∨
    (QueueService.applyCode st c msg now).status = "bounce" ∨
    (QueueService.applyCode st c msg now).status = st.status := by
  unfold QueueService.applyCode
  split_ifs <;> simp

/-- Every entry of the updated recipient map is either an original entry or
an original entry passed through `applyCode`. -/
theorem mem_updateRecipientStatus (rs : List (String × RecipientState))
    (rcpt : String) (c : ℕ) (msg : String) (now : ℚ) (p : String × RecipientState)
    (hp : p ∈ QueueService.updateRecipientStatus rs rcpt c msg now) :
    ∃ q ∈ rs, p = q ∨ p = (q.1, QueueService.applyCode q.2 c msg now) := by
  unfold QueueService.updateRecipientStatus at hp
  split at hp
  · obtain ⟨q, hq, hfq⟩ := List.mem_map.mp hp
    refine ⟨q, hq, ?_⟩
    by_cases hk : q.1 = rcpt <;> simp [hk] at hfq <;> subst hfq <;> simp [hk]
  · exact ⟨p, hp, Or.inl rfl⟩

/-! ## Claims -/

/-- C10: when the message exists but the recipient is not a key of its
`recipient_status` map, `update_delivery_status` leaves every recipient's
state unchanged, still increments the overall attempts counter, overwrites
`last_error`, recomputes overall status and `next_retry_at`, persists the
message and returns `True`. -/
theorem C10_missing_recipient (m : QueuedMessage) (rcpt : String) (c : ℕ)
    (msg : String) (now r : ℚ) (hmiss : m.recipient_status.lookup rcpt = none) :
    QueueService.update_delivery_status (some m) rcpt c msg now r =
      (some (QueueService.update_delivery_status_found m rcpt c msg now r), true) ∧
    (QueueService.update_delivery_status_found m rcpt c msg now r).recipient_status =
      m.recipient_status ∧
    (QueueService.update_delivery_status_found m rcpt c msg now r).attempts = m.attempts + 1 ∧
    (QueueService.update_delivery_status_found m rcpt c msg now r).last_error =
      some (QueueService.statusLine c msg) ∧
    (QueueService.update_delivery_status_found m rcpt c msg now r).status =
      (if now - m.created_at > MAX_QUEUE_AGE then "bounce"
       else if m.pending_recipients ≠ [] then "deferred"
       else if m.all_delivered then "delivered"
       else "bounce") ∧
    (QueueService.update_delivery_status_found m rcpt c msg now r).next_retry_at =
      (if m.pending_recipients ≠ [] then QueueService.calculate_next_retry (m.attempts + 1) now r
       else m.next_retry_at) := by
  have hrs := updateRecipientStatus_missing m.recipient_status rcpt c msg now hmiss
  refine ⟨rfl, ?_, ?_, ?_, ?_, ?_⟩ <;>
    rw [update_found_eq] <;>
      simp [hrs, QueuedMessage.pending_recipients, QueuedMessage.all_delivered]

/-- Witness for C10 at a concrete message whose recipient map does not
contain the updated recipient. -/
theorem C10_missing_recipient_witness :
    (QueueService.update_delivery_status (some (samplePendingMsg 0)) "x@y.z" 250 "OK" 10 (1/2)).2
      = true := by
  have h := C10_missing_recipient (samplePendingMsg 0) "x@y.z" 250 "OK" 10 (1/2) (by decide)
  rw [h.1]

/-- C1 counterexample: a message with one pending recipient whose attempts
counter reaches `len(RETRY_SCHEDULE)` (post-update attempts 8 ≥ 7, and
pre-update attempts 7 ≥ 7) but which is not past `MAX_QUEUE_AGE`: the claim
demands status `bounce` and recipient state `expired`; the code yields
status `deferred` with `next_retry_at = None` and the recipient `deferred`. -/
theorem C1_counterexample :
    (QueueService.update_delivery_status_found (samplePendingMsg 7) "r@d.example" 450
        "try later" 100 (1/2)).pending_recipients = ["r@d.example"] ∧
    (samplePendingMsg 7).attempts = 7 ∧ RETRY_SCHEDULE.length = 7 ∧
    ¬ ((100 : ℚ) - (samplePendingMsg 7).created_at > MAX_QUEUE_AGE) ∧
    (QueueService.update_delivery_status_found (samplePendingMsg 7) "r@d.example" 450
        "try later" 100 (1/2)).status = "deferred" ∧
    (QueueService.update_delivery_status_found (samplePendingMsg 7) "r@d.example" 450
        "try later" 100 (1/2)).next_retry_at = none ∧
    ((QueueService.update_delivery_status_found (samplePendingMsg 7) "r@d.example" 450
        "try later" 100 (1/2)).recipient_status.lookup "r@d.example").map
        RecipientState.status = some "deferred" := by
  have hexp : ¬ ((100 : ℚ) - (samplePendingMsg 7).created_at > MAX_QUEUE_AGE) := by
    norm_num [samplePendingMsg, MAX_QUEUE_AGE]
  refine ⟨?_, by decide, by decide, hexp, ?_, ?_, ?_⟩ <;>
    rw [update_found_eq] <;> (try dsimp only) <;>
      first
      | decide
      | (rw [if_neg hexp]; decide)

/-- C1 amended: when a pending/deferred recipient remains after the update,
only queue-age expiry forces `status='bounce'` (the recipients are never
marked `expired`); when the attempts counter reaches `len(RETRY_SCHEDULE)`
without expiry, the message stays `deferred` with `next_retry_at = None`. -/
theorem C1_expiry_and_exhaustion (m : QueuedMessage) (rcpt : String) (c : ℕ)
    (msg : String) (now r : ℚ)
    (hpend : (QueueService.update_delivery_status_found m rcpt c msg now r).pending_recipients
        ≠ []) :
    ((now - m.created_at > MAX_QUEUE_AGE) →
      (QueueService.update_delivery_status_found m rcpt c msg now r).status = "bounce") ∧
    (¬ (now - m.created_at > MAX_QUEUE_AGE) →
      RETRY_SCHEDULE.length ≤ m.attempts + 1 →
      (QueueService.update_delivery_status_found m rcpt c msg now r).status = "deferred" ∧
      (QueueService.update_delivery_status_found m rcpt c msg now r).next_retry_at = none) ∧
    ((∀ p ∈ m.recipient_status, p.2.status ≠ "expired") →
      ∀ p ∈ (QueueService.update_delivery_status_found m rcpt c msg now r).recipient_status,
        p.2.status ≠ "expired") := by
  rw [update_found_eq] at hpend ⊢
  simp only [QueuedMessage.pending_recipients] at hpend
  refine ⟨fun hexp => by simp [hexp], fun hexp hatt => ?_, fun hne p hp => ?_⟩
  · refine ⟨by simp [hexp, hpend], ?_⟩
    simp only [hpend, if_true, ite_not]
    simp [QueueService.calculate_next_retry, hatt]
  · obtain ⟨q, hq, hcase⟩ := mem_updateRecipientStatus m.recipient_status rcpt c msg now p hp
    rcases hcase with h | h
    · exact h ▸ hne q hq
    · rcases applyCode_status_cases q.2 c msg now with h4 | h4 | h4 | h4 <;>
        rw [h, h4] <;> simp_all [hne q hq]

/-- Witness for C1 amended at a concrete expired message and a concrete
retry-exhausted message. -/
theorem C1_expiry_and_exhaustion_witness :
    (QueueService.update_delivery_status_found (samplePendingMsg 7) "r@d.example" 450
        "try later" 700000 (1/2)).status = "bounce" ∧
    (QueueService.update_delivery_status_found (samplePendingMsg 7) "r@d.example" 450
        "try later" 100 (1/2)).next_retry_at = none := by
  have hpendA : (QueueService.update_delivery_status_found (samplePendingMsg 7) "r@d.example"
      450 "try later" 700000 (1/2)).pending_recipients ≠ [] := by
    rw [update_found_eq]; decide
  have hpendB : (QueueService.update_delivery_status_found (samplePendingMsg 7) "r@d.example"
      450 "try later" 100 (1/2)).pending_recipients ≠ [] := by
    rw [update_found_eq]; decide
  have hA := C1_expiry_and_exhaustion (samplePendingMsg 7) "r@d.example" 450 "try later"
    700000 (1/2) hpendA
  have hB := C1_expiry_and_exhaustion (samplePendingMsg 7) "r@d.example" 450 "try later"
    100 (1/2) hpendB
  refine ⟨hA.1 (by norm_num [samplePendingMsg, MAX_QUEUE_AGE]),
    (hB.2.1 (by norm_num [samplePendingMsg, MAX_QUEUE_AGE]) (by decide)).2⟩

/-- C2 counterexample: `update_delivery_status` does not preserve the
overall-status invariant.  A message older than `MAX_QUEUE_AGE` with its only
recipient still pending satisfies the invariant before the call
(status `active`), but the expiry override sets `status='bounce'` while the
recipient stays `deferred` — so status is `bounce` with a pending/deferred
recipient remaining and no recipient in state `bounce`. -/
theorem C2_counterexample :
    overall_status_invariant (samplePendingMsg 0) ∧
    ¬ overall_status_invariant
      (QueueService.update_delivery_status_found (samplePendingMsg 0) "r@d.example" 450
        "try later" 700000 (1/2)) := by
  have hexp : (700000 : ℚ) - (samplePendingMsg 0).created_at > MAX_QUEUE_AGE := by
    norm_num [samplePendingMsg, MAX_QUEUE_AGE]
  have h1 : (QueueService.update_delivery_status_found (samplePendingMsg 0) "r@d.example" 450
      "try later" 700000 (1/2)).status = "bounce" := by
    rw [update_found_eq]; dsimp only; rw [if_pos hexp]
  have h2 : (QueueService.update_delivery_status_found (samplePendingMsg 0) "r@d.example" 450
      "try later" 700000 (1/2)).pending_recipients = ["r@d.example"] := by
    rw [update_found_eq]; decide
  refine ⟨by unfold overall_status_invariant QueuedMessage.pending_recipients; decide,
    fun h => ?_⟩
  have := (h.2 h1).1
  rw [h2] at this
  simp at this

/-- C2 amended: the overall-status invariant does hold after
`update_delivery_status` whenever the message is not past `MAX_QUEUE_AGE`
(and the stored recipient states are among the four legal ones); the expiry
override is the only violation. -/
theorem C2_invariant_when_not_expired (m : QueuedMessage) (rcpt : String) (c : ℕ)
    (msg : String) (now r : ℚ)
    (hwf : ∀ p ∈ m.recipient_status, p.2.status = "pending" ∨ p.2.status = "deferred" ∨
      p.2.status = "delivered" ∨ p.2.status = "bounce")
    (hexp : ¬ (now - m.created_at > MAX_QUEUE_AGE)) :
    overall_status_invariant
      (QueueService.update_delivery_status_found m rcpt c msg now r) := by
  have hwf1 : ∀ p ∈ QueueService.updateRecipientStatus m.recipient_status rcpt c msg now,
      p.2.status = "pending" ∨ p.2.status = "deferred" ∨ p.2.status = "delivered" ∨
        p.2.status = "bounce" := by
    intro p hp
    obtain ⟨q, hq, hc⟩ := mem_updateRecipientStatus m.recipient_status rcpt c msg now p hp
    rcases hc with h | h
    · exact h ▸ hwf q hq
    · rcases applyCode_status_cases q.2 c msg now with h4 | h4 | h4 | h4 <;>
        rw [h] <;> rw [h4] at * <;> simp_all [hwf q hq]
  rw [update_found_eq]
  unfold overall_status_invariant
  simp only [QueuedMessage.pending_recipients]
  try dsimp only
  rw [if_neg hexp]
  by_cases hpend :
      pendingOf (QueueService.updateRecipientStatus m.recipient_status rcpt c msg now) ≠ []
  · rw [if_pos hpend]
    obtain ⟨p, hp, hps⟩ :
        ∃ p ∈ QueueService.updateRecipientStatus m.recipient_status rcpt c msg now,
          (p.2.status = "pending" ∨ p.2.status = "deferred") := by
      rcases hq : (QueueService.updateRecipientStatus m.recipient_status rcpt c msg now).filter
          (fun p => p.2.status = "pending" || p.2.status = "deferred") with _ | ⟨a, l⟩
      · exact absurd (by simp [pendingOf, hq]) hpend
      · have ha := List.mem_of_mem_filter (l := QueueService.updateRecipientStatus
          m.recipient_status rcpt c msg now) (hq ▸ List.mem_cons_self a l)
        have hprop := List.of_mem_filter (l := QueueService.updateRecipientStatus
          m.recipient_status rcpt c msg now) (p := fun p =>
            p.2.status = "pending" || p.2.status = "deferred") (hq ▸ List.mem_cons_self a l)
        simp only [Bool.or_eq_true, decide_eq_true_eq] at hprop
        exact ⟨a, ha, hprop⟩
    constructor
    · constructor
      · intro habs; simp at habs
      · intro hall
        have := hall p hp
        rcases hps with hps | hps <;> rw [hps] at this <;> simp at this
    · intro habs; simp at habs
  · rw [if_neg hpend]
    rw [not_not] at hpend
    have hnotpd : ∀ p ∈ QueueService.updateRecipientStatus m.recipient_status rcpt c msg now,
        ¬ (p.2.status = "pending" ∨ p.2.status = "deferred") := by
      have h : ∀ (a : String) (b : RecipientState),
          (a, b) ∈ QueueService.updateRecipientStatus m.recipient_status rcpt c msg now →
            ¬ b.status = "pending" ∧ ¬ b.status = "deferred" := by
        simpa [pendingOf] using hpend
      intro p hp
      have := h p.1 p.2 hp
      tauto
    by_cases hall :
        allDeliveredOf (QueueService.updateRecipientStatus m.recipient_status rcpt c msg now)
          = true
    · rw [if_pos hall]
      simp only [allDeliveredOf, List.all_eq_true, decide_eq_true_eq] at hall
      exact ⟨⟨fun _ => hall, fun _ => rfl⟩, fun habs => by simp at habs⟩
    · rw [if_neg hall]
      simp only [allDeliveredOf, List.all_eq_true, decide_eq_true_eq] at hall
      push_neg at hall
      obtain ⟨p, hp, hps⟩ := hall
      have hbounce : p.2.status = "bounce" := by
        rcases hwf1 p hp with h4 | h4 | h4 | h4
        · exact absurd (Or.inl h4) (hnotpd p hp)
        · exact absurd (Or.inr h4) (hnotpd p hp)
        · exact absurd h4 hps
        · exact h4
      refine ⟨⟨fun habs => by simp at habs, fun hcontra => absurd (hcontra p hp) hps⟩,
        fun _ => ⟨hpend, p, hp, hbounce⟩⟩

/-- Witness for C2 amended at a concrete non-expired message. -/
theorem C2_invariant_when_not_expired_witness :
    overall_status_invariant
      (QueueService.update_delivery_status_found (samplePendingMsg 0) "r@d.example" 250
        "OK" 10 (1/2)) :=
  C2_invariant_when_not_expired (samplePendingMsg 0) "r@d.example" 250 "OK" 10 (1/2)
    (by decide) (by norm_num [samplePendingMsg, MAX_QUEUE_AGE])

/-- C3 counterexample: a 4xx on the first delivery attempt (k = 0, message
`attempts` counter 0 before the call) schedules the retry
`RETRY_SCHEDULE[1]` = 900 s away (here with jitter factor `r = 1/2`, i.e.
zero jitter), not within `[0.8·RETRY_SCHEDULE[0], 1.2·RETRY_SCHEDULE[0]]`
= [240, 360] as claimed: the code indexes the schedule with the
already-incremented counter. -/
theorem C3_counterexample :
    (samplePendingMsg 0).attempts = 0 ∧
    (QueueService.update_delivery_status_found (samplePendingMsg 0) "r@d.example" 450
        "try later" 0 (1/2)).next_retry_at = some 900 ∧
    RETRY_SCHEDULE.getD 0 0 = 300 ∧
    ¬ ((4/5 : ℚ) * 300 ≤ 900 - 0 ∧ (900 : ℚ) - 0 ≤ (6/5) * 300) := by
  refine ⟨rfl, ?_, by norm_num [RETRY_SCHEDULE], by norm_num⟩
  rw [update_found_eq]
  dsimp only
  rw [if_pos (by decide)]
  norm_num [QueueService.calculate_next_retry, RETRY_SCHEDULE, samplePendingMsg]

/-- C3 amended: a 4xx on the k-th delivery attempt (0-indexed, the message's
attempts counter being k before the call) with a pending/deferred recipient
left schedules `next_retry_at − now` within
`[0.8·RETRY_SCHEDULE[k+1], 1.2·RETRY_SCHEDULE[k+1]]` when `k+1 < 7`, and
sets `next_retry_at = None` when `k+1 ≥ 7`: the schedule is indexed by the
post-increment counter, skipping slot 0 and never using slot 6 as the claim
intends. -/
theorem C3_retry_uses_next_slot (m : QueuedMessage) (rcpt msg : String) (c : ℕ)
    (now r : ℚ) (k : ℕ)
    (hk : m.attempts = k)
    (_hc : 400 ≤ c ∧ c < 500)
    (hr : 0 ≤ r ∧ r < 1)
    (hpend : (QueueService.update_delivery_status_found m rcpt c msg now r).pending_recipients
        ≠ []) :
    (k + 1 < RETRY_SCHEDULE.length →
      ∃ t, (QueueService.update_delivery_status_found m rcpt c msg now r).next_retry_at
          = some t ∧
        (4/5) * RETRY_SCHEDULE.getD (k+1) 0 ≤ t - now ∧
        t - now ≤ (6/5) * RETRY_SCHEDULE.getD (k+1) 0) ∧
    (RETRY_SCHEDULE.length ≤ k + 1 →
      (QueueService.update_delivery_status_found m rcpt c msg now r).next_retry_at = none) := by
  rw [update_found_eq] at hpend ⊢
  simp only [QueuedMessage.pending_recipients] at hpend
  dsimp only at hpend ⊢
  rw [if_pos hpend, hk]
  constructor
  · intro hlt
    rw [QueueService.calculate_next_retry, if_neg (by omega)]
    refine ⟨_, rfl, ?_, ?_⟩ <;>
      · have hk5 : k ≤ 5 := by simp [RETRY_SCHEDULE] at hlt; omega
        interval_cases k <;>
          · norm_num [RETRY_SCHEDULE]
            nlinarith [hr.1, hr.2]
  · intro hge
    rw [QueueService.calculate_next_retry, if_pos hge]

/-- Witness for C3 amended: after six prior attempts (k = 6) the next 4xx
leaves `next_retry_at = None`. -/
theorem C3_retry_uses_next_slot_witness :
    (QueueService.update_delivery_status_found (samplePendingMsg 6) "r@d.example" 450
        "try later" 5 (1/3)).next_retry_at = none := by
  have h := C3_retry_uses_next_slot (samplePendingMsg 6) "r@d.example" "try later" 450
    5 (1/3) 6 rfl (by decide) (by norm_num)
    (by rw [update_found_eq]; decide)
  exact h.2 (by decide)

/-- C4: the controller accepts `MAIL FROM:<>` (`# Allow null sender`) and
stores the empty sender, but `Message.validate` rejects any falsy sender, so
`enqueue_message` raises and the DATA phase replies 451, not 250.  This
theorem evaluates the whole transaction at the failing input: MAIL and RCPT
succeed, validation of the null-sender message is `False`, and DATA replies
`451 ... Failed to queue message` with nothing enqueued. -/
theorem C4_null_sender_rejected_at_DATA :
    (SMTPController.handle_MAIL defaultConfig samplePolicyOracle sampleSessionGreeted
        "FROM:<>").1.mail_from = some "" ∧
    (SMTPController.handle_MAIL defaultConfig samplePolicyOracle sampleSessionGreeted
        "FROM:<>").1.state = SMTPState.MAIL ∧
    (SMTPController.handle_MAIL defaultConfig samplePolicyOracle sampleSessionGreeted
        "FROM:<>").2 = [SMTPResponseView.sender_ok ""] ∧
    Message.validate
      { sender := some "", recipients := ["r@example.com"],
        data := "Subject: t\r\n\r\nhi\r\n" } = false ∧
    (let s1 := (SMTPController.handle_MAIL defaultConfig samplePolicyOracle
        sampleSessionGreeted "FROM:<>").1
     let s2 := (SMTPController.handle_RCPT defaultConfig samplePolicyOracle s1
        "TO:<r@example.com>").1
     let d := SMTPController.handle_DATA defaultConfig s2 ""
        ["Subject: t\r\n", "\r\n", "hi\r\n", ".\r\n"] "Q1" "TS" 0
     s2.rcpt_to = ["r@example.com"] ∧
     d.2.1 = [SMTPResponseView.start_data,
              SMTPResponseView.local_error "Failed to queue message"] ∧
     d.2.2 = none) := by
  decide

/-- C5: a MAIL command outside GREETED/AUTHENTICATED, a RCPT command outside
MAIL/RCPT, and a DATA command outside RCPT each reply 503 and leave the
session (state, `mail_from`, `rcpt_to`, `message_data`) unchanged, for every
configuration, policy environment and argument string. -/
theorem C5_bad_sequence_no_mutation (cfg : Config) (po : SMTPController.PolicyOracle)
    (s : SMTPSession) (argsM argsR argsD : String) (lines : List String)
    (newId ts : String) (now : ℚ) :
    (s.state ≠ .GREETED → s.state ≠ .AUTHENTICATED →
      SMTPController.handle_MAIL cfg po s argsM =
        (s, [SMTPResponseView.bad_sequence "Use HELO/EHLO first"])) ∧
    (s.state ≠ .MAIL → s.state ≠ .RCPT →
      SMTPController.handle_RCPT cfg po s argsR =
        (s, [SMTPResponseView.bad_sequence "Use MAIL FROM first"])) ∧
    (s.state ≠ .RCPT →
      SMTPController.handle_DATA cfg s argsD lines newId ts now =
        (s, [SMTPResponseView.bad_sequence "Use RCPT TO first"], none)) := by
  refine ⟨fun h1 h2 => ?_, fun h1 h2 => ?_, fun h1 => ?_⟩
  · simp [SMTPController.handle_MAIL, h1, h2]
  · simp [SMTPController.handle_RCPT, h1, h2]
  · simp [SMTPController.handle_DATA, h1]

/-- Witness for C5 on a fresh (INITIAL) session refusing MAIL, RCPT and
DATA. -/
theorem C5_bad_sequence_no_mutation_witness :
    SMTPController.handle_MAIL defaultConfig samplePolicyOracle sampleSessionInitial
        "FROM:<a@b.cd>" =
      (sampleSessionInitial, [SMTPResponseView.bad_sequence "Use HELO/EHLO first"]) ∧
    SMTPController.handle_RCPT defaultConfig samplePolicyOracle sampleSessionInitial
        "TO:<r@d.example>" =
      (sampleSessionInitial, [SMTPResponseView.bad_sequence "Use MAIL FROM first"]) ∧
    SMTPController.handle_DATA defaultConfig sampleSessionInitial "" [".\r\n"] "Q1" "TS" 0 =
      (sampleSessionInitial, [SMTPResponseView.bad_sequence "Use RCPT TO first"], none) := by
  have h := C5_bad_sequence_no_mutation defaultConfig samplePolicyOracle sampleSessionInitial
    "FROM:<a@b.cd>" "TO:<r@d.example>" "" [".\r\n"] "Q1" "TS" 0
  exact ⟨h.1 (by decide) (by decide), h.2.1 (by decide) (by decide), h.2.2 (by decide)⟩

/-- `n` consecutive `consume`s at a fixed instant all succeed while at least
`n` tokens are available, and remove exactly `n` tokens. -/
theorem consumeN_all_true (now : ℚ) (n : ℕ) :
    ∀ b : RateLimit, b.last_refill = now → (n : ℚ) ≤ b.tokens →
      b.tokens ≤ (b.capacity : ℚ) →
      PolicyService.consumeN b now n =
        ({ b with tokens := b.tokens - n, total_requests := b.total_requests + n },
         List.replicate n true) := by
  induction n with
  | zero => intro b _ _ _; simp [PolicyService.consumeN]
  | succ n ih =>
    intro b hlr hle hcap
    have hrefill : b.refill now = { b with last_refill := now } := by
      simp [RateLimit.refill, hlr, min_eq_right hcap]
    have h1le : (1 : ℚ) ≤ b.tokens := by
      have hx : ((n : ℚ) + 1) ≤ b.tokens := by push_cast at hle; linarith
      linarith [Nat.cast_nonneg (α := ℚ) n]
    have hcons : b.consume now 1 =
        ({ b with
            tokens := b.tokens - 1
            total_requests := b.total_requests + 1
            last_refill := now }, true) := by
      simp [RateLimit.consume, hrefill, h1le]
    have hih := ih
      { b with
        tokens := b.tokens - 1
        total_requests := b.total_requests + 1
        last_refill := now } rfl
      (by show (n : ℚ) ≤ b.tokens - 1; push_cast at hle; linarith)
      (by show b.tokens - 1 ≤ (b.capacity : ℚ); linarith)
    simp only [PolicyService.consumeN, hcons, hih, List.replicate_succ]
    refine Prod.ext ?_ rfl
    simp only [RateLimit.mk.injEq, and_true, true_and]
    refine ⟨?_, hlr.symm, by omega⟩
    push_cast; ring

/-- C6: a freshly created bucket of capacity `C ≥ 1` and refill rate `r > 0`
admits exactly `C` immediate checks, refuses the `(C+1)`-th, admits one more
after `1/r` further seconds, and `refill` never raises the token count above
the capacity. -/
theorem C6_token_bucket (ident ltype : String) (C : ℕ) (r now : ℚ)
    (hC : 1 ≤ C) (hr : 0 < r) :
    (PolicyService.consumeN (PolicyService.freshRateLimit ident ltype C r now) now C).2
      = List.replicate C true ∧
    ((PolicyService.consumeN (PolicyService.freshRateLimit ident ltype C r now) now C).1.consume
        now 1).2 = false ∧
    ((((PolicyService.consumeN (PolicyService.freshRateLimit ident ltype C r now)
        now C).1.consume now 1).1).consume (now + 1/r) 1).2 = true ∧
    ∀ (b : RateLimit) (t : ℚ), (b.refill t).tokens ≤ (b.capacity : ℚ) := by
  have hmain := consumeN_all_true now C (PolicyService.freshRateLimit ident ltype C r now)
    rfl (le_refl _) (le_refl _)
  have hCpos : (0 : ℚ) ≤ (C : ℚ) := Nat.cast_nonneg C
  have h1C : (1 : ℚ) ≤ (C : ℚ) := by exact_mod_cast hC
  have hinv : (1 / r) * r = 1 := one_div_mul_cancel (ne_of_gt hr)
  have hb1 : (PolicyService.consumeN (PolicyService.freshRateLimit ident ltype C r now)
      now C).1 =
      { identifier := ident, limit_type := ltype, capacity := C, tokens := 0
        refill_rate := r, last_refill := now, total_requests := C
        rejected_requests := 0 } := by
    rw [hmain]
    simp [PolicyService.freshRateLimit]
  have hb2 : ((PolicyService.consumeN (PolicyService.freshRateLimit ident ltype C r now)
      now C).1.consume now 1) =
      ({ identifier := ident, limit_type := ltype, capacity := C, tokens := 0
         refill_rate := r, last_refill := now, total_requests := C + 1
         rejected_requests := 1 }, false) := by
    rw [hb1]
    simp only [RateLimit.consume, RateLimit.refill]
    norm_num [min_eq_right hCpos]
  have hb3 : (((PolicyService.consumeN (PolicyService.freshRateLimit ident ltype C r now)
      now C).1.consume now 1).1.consume (now + 1/r) 1) =
      ({ identifier := ident, limit_type := ltype, capacity := C, tokens := 0
         refill_rate := r, last_refill := now + 1/r, total_requests := C + 2
         rejected_requests := 1 }, true) := by
    rw [hb2]
    simp only [RateLimit.consume, RateLimit.refill]
    ring_nf
    norm_num [mul_inv_cancel₀ (ne_of_gt hr), min_eq_right h1C, h1C]
  refine ⟨by rw [hmain], by rw [hb2], by rw [hb3], ?_⟩
  intro b t
  simp [RateLimit.refill, min_le_left]

/-- Witness for C6 at capacity 1, rate 1, starting instant 0. -/
theorem C6_token_bucket_witness :
    (PolicyService.consumeN (PolicyService.freshRateLimit "10.0.0.1" "ip" 1 1 0) 0 1).2
      = List.replicate 1 true ∧
    ((PolicyService.consumeN (PolicyService.freshRateLimit "10.0.0.1" "ip" 1 1 0) 0 1).1.consume
        0 1).2 = false := by
  have h := C6_token_bucket "10.0.0.1" "ip" 1 1 0 (le_refl 1) (by norm_num)
  refine ⟨h.1, ?_⟩
  have h2 := h.2.1
  norm_num at h2 ⊢
  exact h2

/-- `assocSet` makes the key map to the new value. -/
theorem assocSet_lookup {β : Type} (l : List (String × β)) (k : String) (v : β) :
    (assocSet l k v).lookup k = some v := by
  unfold assocSet
  split
  · rename_i h
    induction l with
    | nil => simp at h
    | cons p l ih =>
      simp only [List.map_cons]
      by_cases hp : p.1 = k
      · rw [if_pos hp]
        have hk : (k == p.1) = true := by simp [hp]
        simp [List.lookup, hk]
      · rw [if_neg hp]
        have hk : (k == p.1) = false := by simp [Ne.symm hp]
        simp only [List.lookup, hk]
        apply ih
        simpa [List.lookup, hk] using h
  · rename_i h
    induction l with
    | nil => simp [List.lookup]
    | cons p l ih =>
      by_cases hp : p.1 = k
      · exfalso
        apply h
        simp [List.lookup, show (k == p.1) = true by simp [hp]]
      · have hk : (k == p.1) = false := by simp [Ne.symm hp]
        simp only [List.cons_append, List.lookup, hk]
        apply ih
        intro habs
        apply h
        simp [List.lookup, hk, habs]

/-- C7 counterexample: authenticating as a *disabled* user from an unlocked
peer IP returns null but records no failure timestamp for the IP (the code
returns before `_record_failure`), contrary to the claim that all three
failure cases record one. -/
theorem C7_counterexample :
    AuthService.authenticate (fun p => p) 5 300 [sampleDisabledUser] ⟨[], []⟩ "bob" "pw"
        "1.2.3.4" 100 = (⟨[], []⟩, none, [sampleDisabledUser]) ∧
    sampleDisabledUser.enabled = false ∧
    AuthService.is_locked ⟨[], []⟩ "1.2.3.4" 100 = (false, ⟨[], []⟩) := by
  decide

/-- C7 amended: with the peer IP not locked out, a missing user or a password
mismatch returns null *and* records a failure timestamp for the IP, but a
disabled user returns null with the failure record untouched. -/
theorem C7_failure_recording (hashFn : String → String) (max_attempts : ℕ)
    (lockout_duration : ℚ) (users : List User) (st : AuthService.AuthState)
    (username password peer_ip : String) (now : ℚ)
    (hnl : (AuthService.is_locked st peer_ip now).1 = false) :
    (users.find? (fun u => u.username = username) = none →
      AuthService.authenticate hashFn max_attempts lockout_duration users st username
          password peer_ip now =
        (AuthService.record_failure max_attempts lockout_duration
          (AuthService.is_locked st peer_ip now).2 peer_ip now, none, users)) ∧
    (∀ u, users.find? (fun u => u.username = username) = some u → u.enabled = false →
      AuthService.authenticate hashFn max_attempts lockout_duration users st username
          password peer_ip now =
        ((AuthService.is_locked st peer_ip now).2, none, users)) ∧
    (∀ u, users.find? (fun u => u.username = username) = some u → u.enabled = true →
      hashFn password ≠ u.password_hash →
      AuthService.authenticate hashFn max_attempts lockout_duration users st username
          password peer_ip now =
        (AuthService.record_failure max_attempts lockout_duration
          (AuthService.is_locked st peer_ip now).2 peer_ip now, none, users)) ∧
    (0 < lockout_duration → ∀ st2 : AuthService.AuthState,
      ∃ l, (AuthService.record_failure max_attempts lockout_duration st2 peer_ip
          now).failed_attempts.lookup peer_ip = some l ∧ now ∈ l) := by
  refine ⟨fun hfind => ?_, fun u hfind hdis => ?_, fun u hfind hen hne => ?_,
    fun hld st2 => ?_⟩
  · simp [AuthService.authenticate, hnl, hfind]
  · simp [AuthService.authenticate, hnl, hfind, hdis]
  · simp [AuthService.authenticate, hnl, hfind, hen, User.verify_password, hne]
  · unfold AuthService.record_failure
    refine ⟨(((st2.failed_attempts.lookup peer_ip).getD []) ++ [now]).filter
      (fun t => now - t < lockout_duration), ?_, ?_⟩
    · dsimp only
      split <;> exact assocSet_lookup _ _ _
    · refine List.mem_filter.mpr ⟨by simp, ?_⟩
      simp [hld]

/-- Witness for C7 amended: a missing user and a wrong password both record
the failure; a disabled user leaves the state unchanged. -/
theorem C7_failure_recording_witness :
    AuthService.authenticate (fun p => p) 5 300 [sampleEnabledUser] ⟨[], []⟩ "bob" "pw"
        "1.2.3.4" 100 =
      (AuthService.record_failure 5 300
        (AuthService.is_locked ⟨[], []⟩ "1.2.3.4" 100).2 "1.2.3.4" 100, none,
       [sampleEnabledUser]) ∧
    AuthService.authenticate (fun p => p) 5 300 [sampleDisabledUser] ⟨[], []⟩ "bob" "pw"
        "1.2.3.4" 100 =
      ((AuthService.is_locked ⟨[], []⟩ "1.2.3.4" 100).2, none, [sampleDisabledUser]) ∧
    AuthService.authenticate (fun p => p) 5 300 [sampleEnabledUser] ⟨[], []⟩ "alice" "bad"
        "1.2.3.4" 100 =
      (AuthService.record_failure 5 300
        (AuthService.is_locked ⟨[], []⟩ "1.2.3.4" 100).2 "1.2.3.4" 100, none,
       [sampleEnabledUser]) := by
  have h1 := C7_failure_recording (fun p => p) 5 300 [sampleEnabledUser] ⟨[], []⟩ "bob" "pw"
    "1.2.3.4" 100 (by decide)
  have h2 := C7_failure_recording (fun p => p) 5 300 [sampleDisabledUser] ⟨[], []⟩ "bob" "pw"
    "1.2.3.4" 100 (by decide)
  have h3 := C7_failure_recording (fun p => p) 5 300 [sampleEnabledUser] ⟨[], []⟩ "alice"
    "bad" "1.2.3.4" 100 (by decide)
  exact ⟨h1.1 (by decide), h2.2.1 sampleDisabledUser (by decide) (by decide),
    h3.2.2.1 sampleEnabledUser (by decide) (by decide) (by decide)⟩

/-- C8 counterexample: when the DATA body exceeds `SMTP_MAX_MESSAGE_SIZE`
(here 10 bytes), the server replies 552 but the handler returns without
`reset_envelope`: the session stays in state RCPT with `mail_from` and
`rcpt_to` intact, not in GREETED with the envelope cleared as claimed. -/
theorem C8_counterexample :
    SMTPController.handle_DATA { defaultConfig with smtp_max_message_size := 10 }
        sampleSessionRcpt "" ["01234567890123456789\r\n", ".\r\n"] "Q1" "TS" 0 =
      (sampleSessionRcpt,
       [SMTPResponseView.start_data,
        SMTPResponseView.exceeded_storage "Message size exceeds limit"], none) ∧
    sampleSessionRcpt.state = SMTPState.RCPT ∧
    sampleSessionRcpt.mail_from = some "a@b.cd" ∧
    sampleSessionRcpt.rcpt_to = ["r@d.example"] := by
  decide

/-- C8 amended: when the cumulative received size exceeds the limit the
server replies `552 ... Message size exceeds limit` and aborts the read, but
the session is returned entirely unchanged — still in state RCPT with
`mail_from` and `rcpt_to` intact — and nothing is enqueued. -/
theorem C8_oversize_leaves_session (cfg : Config) (s : SMTPSession) (lines : List String)
    (newId ts : String) (now : ℚ)
    (hstate : s.state = .RCPT)
    (hover : SMTPController.readDataLines cfg.smtp_max_message_size lines [] 0 =
      .oversize) :
    SMTPController.handle_DATA cfg s "" lines newId ts now =
      (s, [SMTPResponseView.start_data,
           SMTPResponseView.exceeded_storage "Message size exceeds limit"], none) := by
  simp [SMTPController.handle_DATA, hstate, hover]

/-- Witness for C8 amended at a concrete oversized body. -/
theorem C8_oversize_leaves_session_witness :
    SMTPController.handle_DATA { defaultConfig with smtp_max_message_size := 10 }
        sampleSessionRcpt "" ["01234567890123456789\r\n", ".\r\n"] "Q2" "TS2" 5 =
      (sampleSessionRcpt,
       [SMTPResponseView.start_data,
        SMTPResponseView.exceeded_storage "Message size exceeds limit"], none) :=
  C8_oversize_leaves_session { defaultConfig with smtp_max_message_size := 10 }
    sampleSessionRcpt ["01234567890123456789\r\n", ".\r\n"] "Q2" "TS2" 5
    (by decide) (by decide)

/-- A list starts with itself, whatever follows. -/
theorem startsWithChars_self_append (p b : List Char) :
    startsWithChars (p ++ b) p = true := by
  induction p with
  | nil => cases b <;> rfl
  | cons a as ih => simp [startsWithChars, ih]

/-- A concatenation beginning with `p` contains `p`. -/
theorem hasSubstring_self_append (p b : List Char) :
    hasSubstring p (p ++ b) = true := by
  cases p with
  | nil => cases b <;> simp [hasSubstring, startsWithChars]
  | cons c cs =>
    show hasSubstring (c :: cs) (c :: (cs ++ b)) = true
    simp only [hasSubstring, Bool.or_eq_true]
    exact Or.inl (startsWithChars_self_append (c :: cs) b)

/-- Containment is preserved by prepending. -/
theorem hasSubstring_append_left (a : List Char) {p rest : List Char}
    (h : hasSubstring p rest = true) : hasSubstring p (a ++ rest) = true := by
  induction a with
  | nil => simpa using h
  | cons x xs ih => simp [hasSubstring, ih]

/-- A string whose character data splits around `pat` contains `pat`. -/
theorem strContains_of_data_eq (s pre pat post : String)
    (h : s.data = pre.data ++ (pat.data ++ post.data)) : strContains s pat = true := by
  unfold strContains
  rw [h]
  exact hasSubstring_append_left _ (hasSubstring_self_append _ _)

/-- The synthesized Received header contains its `id_part`, which names the
session's queue id from *before* the current enqueue. -/
theorem generate_received_header_contains_id (s : SMTPSession) (ts : String) :
    strContains (SMTPController.generate_received_header s ts)
      (SMTPController.id_part s) = true := by
  refine strContains_of_data_eq _
    ("Received: " ++ ("from " ++ pyStr s.helo_name ++ " (" ++ s.peer_ip ++ ")") ++
      "\r\n\t" ++ ("by " ++ s.server_name) ++ " " ++ SMTPController.with_part s ++ "\r\n\t")
    _
    (" " ++ SMTPController.for_part s ++ ";\r\n\t" ++ ts ++ "\r\n") ?_
  simp only [SMTPController.generate_received_header, String.data_append,
    List.append_assoc]

/-- The synthesized Received header contains `with_part ++ "\r\n"`: the
protocol token actually written by the code. -/
theorem generate_received_header_contains_with (s : SMTPSession) (ts : String) :
    strContains (SMTPController.generate_received_header s ts)
      (SMTPController.with_part s ++ "\r\n") = true := by
  have hsplit : ("\r\n\t" : String) = "\r\n" ++ "\t" := by decide
  refine strContains_of_data_eq _
    ("Received: " ++ ("from " ++ pyStr s.helo_name ++ " (" ++ s.peer_ip ++ ")") ++
      "\r\n\t" ++ ("by " ++ s.server_name) ++ " ")
    _
    ("\t" ++ SMTPController.id_part s ++ " " ++ SMTPController.for_part s ++
      ";\r\n\t" ++ ts ++ "\r\n") ?_
  rw [SMTPController.generate_received_header]
  rw [hsplit]
  simp only [String.data_append, List.append_assoc]

/-- C9 counterexample: on the first transaction of a session the stored
message's Received header says `id unknown`, and the token `id Q123` — the
queue id enqueue actually returned for this very transaction — does not
appear: the header is generated before enqueue assigns `session.queue_id`. -/
theorem C9_counterexample :
    ((SMTPController.handle_DATA defaultConfig sampleSessionRcpt "" ["Hello\r\n", ".\r\n"]
        "Q123" "TS" 0).2.2.map (fun q => q.queue_id)) = some "Q123" ∧
    ((SMTPController.handle_DATA defaultConfig sampleSessionRcpt "" ["Hello\r\n", ".\r\n"]
        "Q123" "TS" 0).2.2.map (fun q => strContains q.message.data "id unknown"))
      = some true ∧
    ((SMTPController.handle_DATA defaultConfig sampleSessionRcpt "" ["Hello\r\n", ".\r\n"]
        "Q123" "TS" 0).2.2.map (fun q => strContains q.message.data "id Q123"))
      = some false ∧
    ((SMTPController.handle_DATA defaultConfig sampleSessionRcpt "" ["Hello\r\n", ".\r\n"]
        "Q123" "TS" 0).2.2.map (fun q => strContains q.message.data "with ESMTP\r\n"))
      = some true := by
  decide

/-- C9 amended: for every message accepted via DATA, the enqueued data is the
Received header generated from the session as it was *before* enqueue,
followed by the body; its id token is `id <session.queue_id or "unknown">`
("unknown" on the session's first transaction, the *previous* transaction's
queue id afterwards), not the id this enqueue returns; and the protocol
token is ESMTP/ESMTPA/ESMTPS/ESMTPSA according to (tls_active,
authenticated_user). -/
theorem C9_header_uses_stale_queue_id (cfg : Config) (s : SMTPSession)
    (lines : List String) (newId ts : String) (now : ℚ) (body : String)
    (qm : QueuedMessage)
    (hstate : s.state = .RCPT)
    (hread : SMTPController.readDataLines cfg.smtp_max_message_size lines [] 0 = .done body)
    (henq : QueueService.enqueue_message s.mail_from s.rcpt_to
        (SMTPController.generate_received_header s ts ++ body) newId now =
      Except.ok qm) :
    SMTPController.handle_DATA cfg s "" lines newId ts now =
      (({ s with
          message_data := some (SMTPController.generate_received_header s ts ++ body)
          queue_id := some qm.queue_id }).reset_envelope,
       [SMTPResponseView.start_data, SMTPResponseView.message_accepted qm.queue_id],
       some qm) ∧
    qm.queue_id = newId ∧
    qm.message.data = SMTPController.generate_received_header s ts ++ body ∧
    SMTPController.id_part s = "id " ++ pyOr s.queue_id "unknown" ∧
    strContains (SMTPController.generate_received_header s ts)
      (SMTPController.id_part s) = true ∧
    SMTPController.with_part s =
      "with " ++ ((if s.tls_active then "ESMTPS" else "ESMTP") ++
        (if ¬ strFalsy s.authenticated_user then "A" else "")) ∧
    strContains (SMTPController.generate_received_header s ts)
      (SMTPController.with_part s ++ "\r\n") = true := by
  have hgen : SMTPController.generate_received_header { s with message_data := some body } ts
      = SMTPController.generate_received_header s ts := rfl
  have hqm : qm = QueuedMessage.mkNew newId
      { sender := s.mail_from, recipients := s.rcpt_to
        data := SMTPController.generate_received_header s ts ++ body } now := by
    unfold QueueService.enqueue_message at henq
    dsimp only at henq
    split at henq
    · simp at henq
    · injection henq with h
      exact h.symm
  refine ⟨?_, by rw [hqm]; rfl, by rw [hqm]; rfl, rfl,
    generate_received_header_contains_id s ts, ?_,
    generate_received_header_contains_with s ts⟩
  · unfold SMTPController.handle_DATA
    rw [if_neg (by simp [hstate])]
    rw [if_neg (by simp)]
    rw [hread]
    dsimp only
    rw [hgen, henq]
  · unfold SMTPController.with_part
    by_cases ht : s.tls_active = true <;>
      by_cases ha : strFalsy s.authenticated_user = true <;>
        simp [ht, ha]

/-- Witness for C9 amended at a concrete first transaction. -/
theorem C9_header_uses_stale_queue_id_witness :
    strContains
      (SMTPController.generate_received_header sampleSessionRcpt "TS")
      (SMTPController.id_part sampleSessionRcpt) = true ∧
    SMTPController.handle_DATA defaultConfig sampleSessionRcpt "" ["Hello\r\n", ".\r\n"]
        "Q9" "TS" 0 =
      (({ sampleSessionRcpt with
          message_data := some
            (SMTPController.generate_received_header sampleSessionRcpt "TS" ++ "Hello\r\n")
          queue_id := some (QueuedMessage.mkNew "Q9"
            { sender := sampleSessionRcpt.mail_from
              recipients := sampleSessionRcpt.rcpt_to
              data := SMTPController.generate_received_header sampleSessionRcpt "TS"
                ++ "Hello\r\n" } 0).queue_id }).reset_envelope,
       [SMTPResponseView.start_data,
        SMTPResponseView.message_accepted (QueuedMessage.mkNew "Q9"
          { sender := sampleSessionRcpt.mail_from
            recipients := sampleSessionRcpt.rcpt_to
            data := SMTPController.generate_received_header sampleSessionRcpt "TS"
              ++ "Hello\r\n" } 0).queue_id],
       some (QueuedMessage.mkNew "Q9"
        { sender := sampleSessionRcpt.mail_from
          recipients := sampleSessionRcpt.rcpt_to
          data := SMTPController.generate_received_header sampleSessionRcpt "TS"
            ++ "Hello\r\n" } 0)) := by
  have h := C9_header_uses_stale_queue_id defaultConfig sampleSessionRcpt
    ["Hello\r\n", ".\r\n"] "Q9" "TS" 0 "Hello\r\n"
    (QueuedMessage.mkNew "Q9"
      { sender := sampleSessionRcpt.mail_from
        recipients := sampleSessionRcpt.rcpt_to
        data := SMTPController.generate_received_header sampleSessionRcpt "TS"
          ++ "Hello\r\n" } 0)
    (by decide) (by decide) (by rfl)
  exact ⟨h.2.2.2.2.1, h.1⟩

end MTA
